import Mathlib

/-!
Verification development for the `yahoo-finance` HTTP gateway
(`src/yahoo-finance/src/server_http.py`).

The gateway is a stateless FastAPI application with five GET routes that
delegate to an upstream market-data provider
(`yahoo_finance_server.helper`, external to this repository).  We embed:

* a JSON value type and an executable parser modelling Python's
  `json.loads` (numbers are kept as a decimal mantissa and a power-of-ten
  exponent, since the embedding has no IEEE floats; the textual error
  messages of the model are abstract stand-ins for Python's);
* the provider interface as a record of functions, each either returning a
  value or failing with a textual description (modelling a raised
  exception `e`, observed by the handlers as `str(e)`);
* the five request handlers, each returning the HTTP response it produces
  together with the list of provider calls it performed, so that
  pass-through of parameters and absence of provider calls are visible;
* the routing layer.  The routing engine itself (FastAPI) is not part of
  the repository sources; where its behaviour decides a property it is
  modelled from the specification (marked `Modelled from the spec:`).
-/

namespace ServerHttp

/-- JSON values.  `num m e` denotes the decimal number `m * 10 ^ e`;
Python parses these into floats, which the embedding represents exactly at
the decimal-literal level. Object members are kept in textual order. -/
inductive Json where
  | null : Json
  | bool : Bool → Json
  | num : Int → Int → Json
  | str : String → Json
  | arr : List Json → Json
  | obj : List (String × Json) → Json
deriving Repr

/-- Whitespace characters skipped by the JSON parser. -/
def isJsonWs (c : Char) : Bool :=
  c = ' ' || c = '\t' || c = '\n' || c = '\r'

/-- Drop leading JSON whitespace. -/
def skipWs : List Char → List Char
  | [] => []
  | c :: cs => if isJsonWs c then skipWs cs else c :: cs

/-- Decimal digits to a natural number. -/
def digitsToNat (ds : List Char) : Nat :=
  ds.foldl (fun acc c => acc * 10 + (c.toNat - 48)) 0

/-- Split a leading run of decimal digits from the rest. -/
def takeDigits : List Char → List Char × List Char
  | [] => ([], [])
  | c :: cs =>
    if c.isDigit then
      let (ds, rest) := takeDigits cs
      (c :: ds, rest)
    else ([], c :: cs)

/-- Strip an expected literal sequence of characters, if present. -/
def stripChars : List Char → List Char → Option (List Char)
  | [], cs => some cs
  | e :: es, c :: cs => if c = e then stripChars es cs else none
  | _ :: _, [] => none

/-- Parse the body of a JSON string literal (after the opening quote),
returning the decoded string and the remaining input.  Handles the
single-character escapes of the JSON grammar. -/
def parseStringAux : List Char → List Char → Except String (String × List Char)
  | _, [] => Except.error "Unterminated string"
  | acc, c :: cs =>
    if c = '"' then Except.ok (String.mk acc.reverse, cs)
    else if c = '\\' then
      match cs with
      | [] => Except.error "Unterminated string"
      | e :: cs2 =>
        let ec : Option Char :=
          if e = '"' then some '"'
          else if e = '\\' then some '\\'
          else if e = '/' then some '/'
          else if e = 'b' then some (Char.ofNat 8)
          else if e = 'f' then some (Char.ofNat 12)
          else if e = 'n' then some '\n'
          else if e = 'r' then some '\r'
          else if e = 't' then some '\t'
          else none
        match ec with
        | some ch => parseStringAux (ch :: acc) cs2
        | none => Except.error "Invalid escape"
    else parseStringAux (c :: acc) cs

/-- Parse an optional fraction part (a point followed by digits),
returning the fraction digits and the remaining input. -/
def parseFrac (cs : List Char) : Except String (List Char × List Char) :=
  match cs with
  | [] => Except.ok ([], [])
  | c :: rest =>
    if c = '.' then
      let (fp, rest1) := takeDigits rest
      if fp.isEmpty then Except.error "Expecting digits after decimal point"
      else Except.ok (fp, rest1)
    else Except.ok ([], cs)

/-- Parse an optional exponent part, returning the signed exponent and the
remaining input. -/
def parseExpPart (cs : List Char) : Except String (Int × List Char) :=
  match cs with
  | [] => Except.ok (0, [])
  | c :: rest =>
    if c = 'e' || c = 'E' then
      let (esign, rest1) : Int × List Char :=
        match rest with
        | s :: r => if s = '+' then (1, r) else if s = '-' then (-1, r) else (1, rest)
        | [] => (1, rest)
      let (eds, rest2) := takeDigits rest1
      if eds.isEmpty then Except.error "Expecting digits in exponent"
      else Except.ok (esign * Int.ofNat (digitsToNat eds), rest2)
    else Except.ok (0, cs)

/-- Parse a JSON number (an optional minus sign, integer digits, optional
fraction, optional exponent). -/
def parseNumber (cs : List Char) : Except String (Json × List Char) :=
  let (neg, cs1) : Bool × List Char :=
    match cs with
    | c :: rest => if c = '-' then (true, rest) else (false, cs)
    | [] => (false, [])
  let (ip, cs2) := takeDigits cs1
  if ip.isEmpty then Except.error "Expecting value" else
  match parseFrac cs2 with
  | Except.error e => Except.error e
  | Except.ok (fp, cs3) =>
    match parseExpPart cs3 with
    | Except.error e => Except.error e
    | Except.ok (ex, cs4) =>
      let mag : Nat := digitsToNat (ip ++ fp)
      let m : Int := if neg then -(Int.ofNat mag) else Int.ofNat mag
      Except.ok (Json.num m (ex - Int.ofNat fp.length), cs4)

mutual

/-- Parse one JSON value from the input.  The fuel argument bounds the
recursion depth; `Json.parse` supplies enough fuel that it is never
exhausted on its input. -/
def parseValue : Nat → List Char → Except String (Json × List Char)
  | 0, _ => Except.error "Nesting limit exceeded"
  | fuel + 1, cs =>
    match skipWs cs with
    | [] => Except.error "Expecting value"
    | c :: rest =>
      if c = '"' then
        match parseStringAux [] rest with
        | Except.error e => Except.error e
        | Except.ok (s, rest1) => Except.ok (Json.str s, rest1)
      else if c = Char.ofNat 123 then
        parseObjMembers fuel rest []
      else if c = '[' then
        parseArrElems fuel rest []
      else if c = 't' then
        match stripChars ['r', 'u', 'e'] rest with
        | some rest1 => Except.ok (Json.bool true, rest1)
        | none => Except.error "Expecting value"
      else if c = 'f' then
        match stripChars ['a', 'l', 's', 'e'] rest with
        | some rest1 => Except.ok (Json.bool false, rest1)
        | none => Except.error "Expecting value"
      else if c = 'n' then
        match stripChars ['u', 'l', 'l'] rest with
        | some rest1 => Except.ok (Json.null, rest1)
        | none => Except.error "Expecting value"
      else if c = '-' || c.isDigit then
        parseNumber (c :: rest)
      else Except.error "Expecting value"

/-- Parse the elements of a JSON array after the opening bracket, with the
already-parsed elements accumulated in reverse. -/
def parseArrElems : Nat → List Char → List Json → Except String (Json × List Char)
  | 0, _, _ => Except.error "Nesting limit exceeded"
  | fuel + 1, cs, acc =>
    match skipWs cs with
    | [] => Except.error "Expecting value"
    | c :: rest =>
      if c = ']' && acc.isEmpty then Except.ok (Json.arr [], rest)
      else
        match parseValue fuel (c :: rest) with
        | Except.error e => Except.error e
        | Except.ok (v, rest1) =>
          match skipWs rest1 with
          | [] => Except.error "Expecting comma delimiter"
          | c2 :: rest2 =>
            if c2 = ',' then parseArrElems fuel rest2 (v :: acc)
            else if c2 = ']' then Except.ok (Json.arr (v :: acc).reverse, rest2)
            else Except.error "Expecting comma delimiter"

/-- Parse the members of a JSON object after the opening brace, with the
already-parsed members accumulated in reverse. -/
def parseObjMembers : Nat → List Char → List (String × Json) →
    Except String (Json × List Char)
  | 0, _, _ => Except.error "Nesting limit exceeded"
  | fuel + 1, cs, acc =>
    match skipWs cs with
    | [] => Except.error "Expecting property name"
    | c :: rest =>
      if c = Char.ofNat 125 && acc.isEmpty then Except.ok (Json.obj [], rest)
      else if c = '"' then
        match parseStringAux [] rest with
        | Except.error e => Except.error e
        | Except.ok (k, rest1) =>
          match skipWs rest1 with
          | [] => Except.error "Expecting colon delimiter"
          | c2 :: rest2 =>
            if c2 = ':' then
              match parseValue fuel rest2 with
              | Except.error e => Except.error e
              | Except.ok (v, rest3) =>
                match skipWs rest3 with
                | [] => Except.error "Expecting comma delimiter"
                | c3 :: rest4 =>
                  if c3 = ',' then parseObjMembers fuel rest4 ((k, v) :: acc)
                  else if c3 = Char.ofNat 125 then
                    Except.ok (Json.obj ((k, v) :: acc).reverse, rest4)
                  else Except.error "Expecting comma delimiter"
            else Except.error "Expecting colon delimiter"
      else Except.error "Expecting property name"

end

/-- Model of Python's `json.loads`: parse a complete JSON document,
rejecting trailing non-whitespace input. -/
def Json.parse (s : String) : Except String Json :=
  let cs := s.data
  match parseValue (2 * cs.length + 8) cs with
  | Except.error e => Except.error e
  | Except.ok (v, rest) =>
    match skipWs rest with
    | [] => Except.ok v
    | _ :: _ => Except.error "Extra data"

/-- The upstream provider interface consumed by the gateway
(`yahoo_finance_server.helper`, external to the repository).  Each
operation either returns its result or fails with a textual description
(the gateway observes a raised exception `e` only as `str(e)`).
`get_ticker_info` returns a JSON string; the other operations return
already structured data.  `get_top_entities` is imported by the gateway
but never invoked by any route. -/
structure Provider where
  get_ticker_info : String → Except String String
  get_ticker_news : String → Int → Except String Json
  search_yahoo_finance : String → Int → Except String Json
  get_price_history : String → String → String → Except String Json
  get_top_entities : String → Int → Except String Json

/-- An HTTP response: status code and JSON body. -/
structure Response where
  status : Nat
  body : Json
deriving Repr

/-- A record of a single provider invocation with the arguments it was
passed, as performed by a handler. -/
inductive ProviderCall where
  | tickerInfo (symbol : String)
  | tickerNews (symbol : String) (count : Int)
  | searchCall (q : String) (count : Int)
  | priceHistory (symbol : String) (period : String) (interval : String)
  | topEntities (entityType : String) (count : Int)
deriving Repr, DecidableEq

/-- The error body `\x7b"detail": "<description>"\x7d` produced by
`HTTPException(status_code=500, detail=str(e))` (and by FastAPI for its
own error responses). -/
def errorBody (e : String) : Json :=
  Json.obj [("detail", Json.str e)]

/-- Handler for `GET /health`: returns `\x7b"status":"ok"\x7d` and
performs no provider call. -/
def health_check : Response × List ProviderCall :=
  ({ status := 200, body := Json.obj [("status", Json.str "ok")] }, [])

/-- Handler for `GET /api/ticker/\x7bsymbol\x7d`: fetches the ticker info
(a JSON string), parses it with `json.loads`, and returns the parsed
value with status 200.  Both a provider failure and a parse failure are
caught by the same block and mapped to status 500 with the failure's
description as `detail`. -/
def get_info (p : Provider) (symbol : String) : Response × List ProviderCall :=
  match p.get_ticker_info symbol with
  | Except.error e => ({ status := 500, body := errorBody e }, [ProviderCall.tickerInfo symbol])
  | Except.ok info_json =>
    match Json.parse info_json with
    | Except.error e => ({ status := 500, body := errorBody e }, [ProviderCall.tickerInfo symbol])
    | Except.ok v => ({ status := 200, body := v }, [ProviderCall.tickerInfo symbol])

/-- Handler for `GET /api/news/\x7bsymbol\x7d`: fetches the news with the
given count (default 10) and returns it with status 200; a provider
failure is mapped to status 500 with the failure's description. -/
def get_news (p : Provider) (symbol : String) (count : Int := 10) :
    Response × List ProviderCall :=
  match p.get_ticker_news symbol count with
  | Except.error e =>
    ({ status := 500, body := errorBody e }, [ProviderCall.tickerNews symbol count])
  | Except.ok news =>
    ({ status := 200, body := news }, [ProviderCall.tickerNews symbol count])

/-- Handler for `GET /api/search`: searches with the given query and
count (default 10) and returns the results with status 200; a provider
failure is mapped to status 500 with the failure's description. -/
def search (p : Provider) (q : String) (count : Int := 10) :
    Response × List ProviderCall :=
  match p.search_yahoo_finance q count with
  | Except.error e =>
    ({ status := 500, body := errorBody e }, [ProviderCall.searchCall q count])
  | Except.ok results =>
    ({ status := 200, body := results }, [ProviderCall.searchCall q count])

/-- Handler for `GET /api/price-history/\x7bsymbol\x7d`: fetches the
price history with the given period (default "1y") and interval (default
"1d"), passed through verbatim, and returns it with status 200; a
provider failure is mapped to status 500 with the failure's
description. -/
def price_history (p : Provider) (symbol : String)
    (period : String := "1y") (interval : String := "1d") :
    Response × List ProviderCall :=
  match p.get_price_history symbol period interval with
  | Except.error e =>
    ({ status := 500, body := errorBody e },
     [ProviderCall.priceHistory symbol period interval])
  | Except.ok history =>
    ({ status := 200, body := history },
     [ProviderCall.priceHistory symbol period interval])

/-- An inbound HTTP request: method, path (as a list of segments between
the slashes), and query parameters. -/
structure Request where
  method : String
  path : List String
  query : List (String × String)

/-- First value bound to a query-parameter name, if present. -/
def qlookup (query : List (String × String)) (k : String) : Option String :=
  match query with
  | [] => none
  | (k1, v) :: rest => if k1 = k then some v else qlookup rest k

/-- Modelled from the spec: the routing layer's coercion of a query
parameter declared `int` (an optional sign followed by decimal digits);
parameter declaration and defaulting live in the handler signatures under
src/, but the coercion itself is framework code outside the repository. -/
def parseIntParam (s : String) : Option Int :=
  match s.data with
  | [] => none
  | c :: ds =>
    if c = '-' then
      if ds ≠ [] && ds.all Char.isDigit then some (-(Int.ofNat (digitsToNat ds))) else none
    else if c = '+' then
      if ds ≠ [] && ds.all Char.isDigit then some (Int.ofNat (digitsToNat ds)) else none
    else if (c :: ds).all Char.isDigit then some (Int.ofNat (digitsToNat (c :: ds)))
    else none

/-- The route table registered by the five `@app.get` decorators. -/
def routeTable : List (String × List String) :=
  [("GET", ["health"]),
   ("GET", ["api", "ticker", "\x7bsymbol\x7d"]),
   ("GET", ["api", "news", "\x7bsymbol\x7d"]),
   ("GET", ["api", "search"]),
   ("GET", ["api", "price-history", "\x7bsymbol\x7d"])]

/-- Modelled from the spec: the routing layer surfaces a client input
error (missing mandatory parameter, malformed integer) as HTTP 400
without invoking the handler; its body is unspecified beyond being a
JSON error value. -/
def clientErrorResp : Response :=
  { status := 400, body := errorBody "Invalid request parameters" }

/-- Modelled from the spec: a request matching no registered route is
answered by the framework without reaching any handler. -/
def notFoundResp : Response :=
  { status := 404, body := errorBody "Not Found" }

/-- Modelled from the spec: the routing layer.  It matches the request
against the route table registered by the `@app.get` decorators, extracts
path and query parameters, applies the declared defaults (count = 10,
period = "1y", interval = "1d"), surfaces client input errors as HTTP 400
without invoking the handler, and otherwise dispatches to the handler.
The routing engine (FastAPI) is not part of the repository sources; the
handler signatures that drive it are. -/
def app_route (p : Provider) (req : Request) : Response × List ProviderCall :=
  if req.method = "GET" then
    match req.path with
    | ["health"] => health_check
    | ["api", "ticker", symbol] => get_info p symbol
    | ["api", "news", symbol] =>
      match qlookup req.query "count" with
      | none => get_news p symbol 10
      | some s =>
        match parseIntParam s with
        | some n => get_news p symbol n
        | none => (clientErrorResp, [])
    | ["api", "search"] =>
      match qlookup req.query "q" with
      | none => (clientErrorResp, [])
      | some q =>
        match qlookup req.query "count" with
        | none => search p q 10
        | some s =>
          match parseIntParam s with
          | some n => search p q n
          | none => (clientErrorResp, [])
    | ["api", "price-history", symbol] =>
      price_history p symbol
        ((qlookup req.query "period").getD "1y")
        ((qlookup req.query "interval").getD "1d")
    | _ => (notFoundResp, [])
  else (notFoundResp, [])

/-- Whether a request matches some entry of the route table (a pattern
segment `\x7bsymbol\x7d` matches any path segment). -/
def matchPattern : List String → List String → Bool
  | [], [] => true
  | pat :: ps, seg :: ss => (pat = "\x7bsymbol\x7d" || pat = seg) && matchPattern ps ss
  | _, _ => false

/-- Whether some registered route matches the request. -/
def matchesSomeRoute (req : Request) : Bool :=
  routeTable.any (fun r => r.1 = req.method && matchPattern r.2 req.path)

/-- The listener binding requested of `uvicorn.run`. -/
structure BindConfig where
  host : String
  port : Nat
deriving Repr, DecidableEq

/-- The parameterised listener binder (`uvicorn.run(app, host=..., port=...)`). -/
def uvicorn_run (host : String) (port : Nat) : BindConfig :=
  { host := host, port := port }

/-- The `__main__` entry point: it invokes the binder with host "0.0.0.0"
and port 8000. -/
def main_entry : BindConfig :=
  uvicorn_run "0.0.0.0" 8000

/-- A provider all of whose operations fail with the description `e`
(used to exercise the failure paths on concrete inputs). -/
def failProvider (e : String) : Provider where
  get_ticker_info := fun _ => Except.error e
  get_ticker_news := fun _ _ => Except.error e
  search_yahoo_finance := fun _ _ => Except.error e
  get_price_history := fun _ _ _ => Except.error e
  get_top_entities := fun _ _ => Except.error e

/-- A provider whose `get_ticker_info` returns the serialized text `t`
(used to exercise the success and parse-failure paths on concrete
inputs). -/
def textProvider (t : String) : Provider where
  get_ticker_info := fun _ => Except.ok t
  get_ticker_news := fun _ _ => Except.error "unused"
  search_yahoo_finance := fun _ _ => Except.error "unused"
  get_price_history := fun _ _ _ => Except.error "unused"
  get_top_entities := fun _ _ => Except.error "unused"

/-- The serialized ticker-info text of the end-to-end example. -/
def aaplText : String := "\x7b\"symbol\":\"AAPL\",\"price\":150.0\x7d"

/-- The structured value the example text denotes (150.0 = 1500 * 10 ^ -1). -/
def aaplJson : Json :=
  Json.obj [("symbol", Json.str "AAPL"), ("price", Json.num 1500 (-1))]

lemma get_info_calls (p : Provider) (s : String) :
    (get_info p s).2 = [ProviderCall.tickerInfo s] := by
  unfold get_info
  cases hp : p.get_ticker_info s with
  | error e => rfl
  | ok t => cases hj : Json.parse t <;> simp [hj]

lemma get_news_calls (p : Provider) (s : String) (n : Int) :
    (get_news p s n).2 = [ProviderCall.tickerNews s n] := by
  unfold get_news
  cases p.get_ticker_news s n <;> rfl

lemma search_calls (p : Provider) (q : String) (n : Int) :
    (search p q n).2 = [ProviderCall.searchCall q n] := by
  unfold search
  cases p.search_yahoo_finance q n <;> rfl

lemma price_history_calls (p : Provider) (s per intv : String) :
    (price_history p s per intv).2 = [ProviderCall.priceHistory s per intv] := by
  unfold price_history
  cases p.get_price_history s per intv <;> rfl

/-- C1: every failure raised by a provider call, of any kind, is returned
by the corresponding handler as HTTP 500 with body
`\x7b"detail": "<failure description>"\x7d`; no provider error kind is
mapped to any other status code. -/
theorem c1_provider_failure_maps_to_500 (p : Provider)
    (s q per intv e : String) (n : Int) :
    (p.get_ticker_info s = Except.error e →
      (get_info p s).1 = { status := 500, body := errorBody e }) ∧
    (p.get_ticker_news s n = Except.error e →
      (get_news p s n).1 = { status := 500, body := errorBody e }) ∧
    (p.search_yahoo_finance q n = Except.error e →
      (search p q n).1 = { status := 500, body := errorBody e }) ∧
    (p.get_price_history s per intv = Except.error e →
      (price_history p s per intv).1 = { status := 500, body := errorBody e }) := by
  refine ⟨fun h => ?_, fun h => ?_, fun h => ?_, fun h => ?_⟩ <;>
    simp [get_info, get_news, search, price_history, h]

/-- Witness for C1 at the provider that fails every operation with
description "boom". -/
theorem c1_witness :
    (get_info (failProvider "boom") "AAPL").1 = { status := 500, body := errorBody "boom" } ∧
    (get_news (failProvider "boom") "AAPL" 5).1 = { status := 500, body := errorBody "boom" } ∧
    (search (failProvider "boom") "apple" 5).1 = { status := 500, body := errorBody "boom" } ∧
    (price_history (failProvider "boom") "AAPL" "1y" "1d").1 =
      { status := 500, body := errorBody "boom" } := by
  obtain ⟨h1, h2, h3, h4⟩ :=
    c1_provider_failure_maps_to_500 (failProvider "boom") "AAPL" "apple" "1y" "1d" "boom" 5
  exact ⟨h1 rfl, h2 rfl, h3 rfl, h4 rfl⟩

/-- C2: when the provider call succeeds, `GET /api/ticker/\x7bsymbol\x7d`
returns HTTP 200 whose body is the provider's serialized text parsed back
into a structured JSON value (not double-encoded). -/
theorem c2_ticker_success_reparses (p : Provider) (s t : String) (v : Json)
    (hp : p.get_ticker_info s = Except.ok t)
    (hv : Json.parse t = Except.ok v) :
    get_info p s = ({ status := 200, body := v }, [ProviderCall.tickerInfo s]) := by
  simp [get_info, hp, hv]

/-- Witness for C2 at the end-to-end example: the provider returns the
text of `aaplText` and the response is HTTP 200 with that text's
structured JSON object as body. -/
theorem c2_witness :
    get_info (textProvider aaplText) "AAPL" =
      ({ status := 200, body := aaplJson }, [ProviderCall.tickerInfo "AAPL"]) :=
  c2_ticker_success_reparses (textProvider aaplText) "AAPL" aaplText aaplJson rfl rfl

/-- C3: `GET /health` returns `\x7b"status":"ok"\x7d` with HTTP 200
unconditionally, performing no provider call, whatever the provider
is. -/
theorem c3_health_constant (p : Provider) (query : List (String × String)) :
    app_route p { method := "GET", path := ["health"], query := query } =
      ({ status := 200, body := Json.obj [("status", Json.str "ok")] }, []) :=
  rfl

/-- C4: `GET /api/price-history/\x7bsymbol\x7d` passes symbol, period and
interval through to the provider verbatim, with period defaulting to "1y"
and interval to "1d" when absent; a provider rejection surfaces as HTTP
500 with its description, not as a gateway-side validation error. -/
theorem c4_price_history_pass_through (p : Provider) (s P I e : String)
    (query : List (String × String)) :
    (price_history p s P I).2 = [ProviderCall.priceHistory s P I] ∧
    app_route p { method := "GET", path := ["api", "price-history", s], query := query } =
      price_history p s ((qlookup query "period").getD "1y")
        ((qlookup query "interval").getD "1d") ∧
    app_route p { method := "GET", path := ["api", "price-history", s], query := [] } =
      price_history p s "1y" "1d" ∧
    (p.get_price_history s P I = Except.error e →
      (price_history p s P I).1 = { status := 500, body := errorBody e }) :=
  ⟨price_history_calls p s P I, rfl, rfl, fun h => by simp [price_history, h]⟩

/-- Witness for C4 at a period and interval outside the documented
enumerated sets and a rejecting provider. -/
theorem c4_witness :
    (price_history (failProvider "invalid period") "AAPL" "7q" "13x").2 =
      [ProviderCall.priceHistory "AAPL" "7q" "13x"] ∧
    app_route (failProvider "invalid period")
        { method := "GET", path := ["api", "price-history", "AAPL"], query := [] } =
      price_history (failProvider "invalid period") "AAPL" "1y" "1d" ∧
    (price_history (failProvider "invalid period") "AAPL" "7q" "13x").1 =
      { status := 500, body := errorBody "invalid period" } := by
  obtain ⟨h1, _, h3, h4⟩ :=
    c4_price_history_pass_through (failProvider "invalid period") "AAPL" "7q" "13x"
      "invalid period" []
  exact ⟨h1, h3, h4 rfl⟩

/-- C5: `GET /api/news/\x7bsymbol\x7d` passes the count to the provider
unchanged, and omitting the count parameter behaves identically to
supplying count=10. -/
theorem c5_news_count_pass_through (p : Provider) (s c : String) (n : Int) :
    (get_news p s n).2 = [ProviderCall.tickerNews s n] ∧
    (parseIntParam c = some n →
      app_route p { method := "GET", path := ["api", "news", s], query := [("count", c)] } =
        get_news p s n) ∧
    app_route p { method := "GET", path := ["api", "news", s], query := [] } =
      app_route p { method := "GET", path := ["api", "news", s], query := [("count", "10")] } :=
  ⟨get_news_calls p s n, fun h => by simp [app_route, qlookup, h], rfl⟩

/-- Witness for C5 at count 7. -/
theorem c5_witness :
    (get_news (failProvider "boom") "AAPL" 7).2 = [ProviderCall.tickerNews "AAPL" 7] ∧
    app_route (failProvider "boom")
        { method := "GET", path := ["api", "news", "AAPL"], query := [("count", "7")] } =
      get_news (failProvider "boom") "AAPL" 7 ∧
    app_route (failProvider "boom")
        { method := "GET", path := ["api", "news", "AAPL"], query := [] } =
      app_route (failProvider "boom")
        { method := "GET", path := ["api", "news", "AAPL"], query := [("count", "10")] } := by
  obtain ⟨h1, h2, h3⟩ := c5_news_count_pass_through (failProvider "boom") "AAPL" "7" 7
  exact ⟨h1, h2 rfl, h3⟩

/-- C6: client input errors are surfaced by the routing layer as HTTP
400 without reaching the handler's provider call: a missing mandatory `q`
on /api/search, and a malformed integer `count` on either of the two
routes that declare it (/api/news and /api/search). -/
theorem c6_client_input_errors_400 (p : Provider) (s c qv : String)
    (query : List (String × String)) :
    (qlookup query "q" = none →
      (app_route p { method := "GET", path := ["api", "search"], query := query }).1.status = 400 ∧
      (app_route p { method := "GET", path := ["api", "search"], query := query }).2 = []) ∧
    (parseIntParam c = none →
      (app_route p
        { method := "GET", path := ["api", "news", s], query := [("count", c)] }).1.status = 400 ∧
      (app_route p
        { method := "GET", path := ["api", "news", s], query := [("count", c)] }).2 = []) ∧
    (parseIntParam c = none →
      (app_route p
        { method := "GET", path := ["api", "search"],
          query := [("q", qv), ("count", c)] }).1.status = 400 ∧
      (app_route p
        { method := "GET", path := ["api", "search"],
          query := [("q", qv), ("count", c)] }).2 = []) := by
  refine ⟨fun h => ?_, fun h => ?_, fun h => ?_⟩
  · simp [app_route, h, clientErrorResp, errorBody]
  · simp [app_route, qlookup, h, clientErrorResp, errorBody]
  · simp [app_route, qlookup, h, clientErrorResp, errorBody]

/-- Witness for C6 with no query parameters at all and the malformed
count "abc" on both the news and the search route. -/
theorem c6_witness :
    ((app_route (failProvider "boom")
        { method := "GET", path := ["api", "search"], query := [] }).1.status = 400 ∧
      (app_route (failProvider "boom")
        { method := "GET", path := ["api", "search"], query := [] }).2 = []) ∧
    ((app_route (failProvider "boom")
        { method := "GET", path := ["api", "news", "AAPL"],
          query := [("count", "abc")] }).1.status = 400 ∧
      (app_route (failProvider "boom")
        { method := "GET", path := ["api", "news", "AAPL"],
          query := [("count", "abc")] }).2 = []) ∧
    ((app_route (failProvider "boom")
        { method := "GET", path := ["api", "search"],
          query := [("q", "apple"), ("count", "abc")] }).1.status = 400 ∧
      (app_route (failProvider "boom")
        { method := "GET", path := ["api", "search"],
          query := [("q", "apple"), ("count", "abc")] }).2 = []) := by
  obtain ⟨h1, h2, h3⟩ :=
    c6_client_input_errors_400 (failProvider "boom") "AAPL" "abc" "apple" []
  exact ⟨h1 rfl, h2 rfl, h3 rfl⟩

/-- C7: the HTTP surface is exactly the five registered GET routes; a
request matching none of them reaches no handler and performs no provider
call, and no route ever invokes the imported `get_top_entities`
operation. -/
theorem c7_route_surface (p : Provider) (req : Request) (t : String) (k : Int) :
    routeTable =
      [("GET", ["health"]),
       ("GET", ["api", "ticker", "\x7bsymbol\x7d"]),
       ("GET", ["api", "news", "\x7bsymbol\x7d"]),
       ("GET", ["api", "search"]),
       ("GET", ["api", "price-history", "\x7bsymbol\x7d"])] ∧
    (matchesSomeRoute req = false → app_route p req = (notFoundResp, [])) ∧
    ProviderCall.topEntities t k ∉ (app_route p req).2 := by
  refine ⟨rfl, ?_, ?_⟩
  · intro h
    obtain ⟨m, path, query⟩ := req
    by_cases hm : m = "GET"
    · subst hm
      simp only [app_route]
      split
      · split
        all_goals first
          | rfl
          | (exfalso; simp [matchesSomeRoute, routeTable, matchPattern] at h)
      · simp at *
    · simp [app_route, hm]
  · obtain ⟨m, path, query⟩ := req
    by_cases hm : m = "GET"
    · subst hm
      simp only [app_route]
      split
      · split
        · simp [health_check]
        · simp [get_info_calls]
        · split
          · simp [get_news_calls]
          · split
            · simp [get_news_calls]
            · simp
        · split
          · simp
          · split
            · simp [search_calls]
            · split
              · simp [search_calls]
              · simp
        · simp [price_history_calls]
        · simp
      · simp at *
    · simp [app_route, hm]

/-- Witness for C7 at a request whose path matches no registered route. -/
theorem c7_witness :
    app_route (failProvider "boom") { method := "GET", path := ["nope"], query := [] } =
      (notFoundResp, []) ∧
    ProviderCall.topEntities "all" 10 ∉
      (app_route (failProvider "boom")
        { method := "GET", path := ["nope"], query := [] }).2 := by
  obtain ⟨_, h2, h3⟩ :=
    c7_route_surface (failProvider "boom")
      { method := "GET", path := ["nope"], query := [] } "all" 10
  exact ⟨h2 rfl, h3⟩

/-- C8: the entry point binds the HTTP listener through the parameterised
binder with host "0.0.0.0" and port 8000. -/
theorem c8_listener_bind_defaults :
    main_entry = uvicorn_run "0.0.0.0" 8000 ∧
    main_entry.host = "0.0.0.0" ∧ main_entry.port = 8000 :=
  ⟨rfl, rfl, rfl⟩

/-- C10: when the provider call succeeds but returns text that is not
valid JSON, the ticker handler returns HTTP 500 with the parse failure's
description as `detail`, because the re-parsing step sits inside the same
failure-catching block as the provider call. -/
theorem c10_parse_failure_maps_to_500 (p : Provider) (s t e : String)
    (hp : p.get_ticker_info s = Except.ok t)
    (hparse : Json.parse t = Except.error e) :
    get_info p s = ({ status := 500, body := errorBody e }, [ProviderCall.tickerInfo s]) := by
  simp [get_info, hp, hparse]

/-- Witness for C10 at a provider returning the non-JSON text
"not json". -/
theorem c10_witness :
    get_info (textProvider "not json") "AAPL" =
      ({ status := 500, body := errorBody "Expecting value" },
       [ProviderCall.tickerInfo "AAPL"]) :=
  c10_parse_failure_maps_to_500 (textProvider "not json") "AAPL" "not json"
    "Expecting value" rfl rfl

end ServerHttp
